import Mathlib

/-!
# Agora streaming token codec — verification development

Shallow embedding of the token-generation core of this repository:

* `agora-manager.py` — `Service` / `ServiceRtc` / `AccessToken` (the "007"
  multi-service token) and `AgoraAPI.generate_rtc_token`;
* `generate_keys.py` — the flat RTC token generator (binary version tag
  `\x00\x02`, output `base64(signature ++ payload)`).

Bytes are modelled as `List Nat` (each entry a byte value).  Python's
`struct.pack`, which raises `struct.error` on a value outside the field's
range, is modelled by `Option`-valued packers (`none` = the raised error).
Randomness (`random.randint`) and wall-clock time (`time.time()`) are
modelled as explicit parameters.  HMAC-SHA256 is implemented concretely so
that tokens evaluate inside the kernel.
-/

/-! ## Fixed-width big-endian byte encodings (Python `struct.pack`) -/

/-- Truncation to a 32-bit word. -/
def w32 (n : Nat) : Nat := n % 4294967296

/-- Big-endian bytes of a 16-bit value (total function; the in-range wire
image of `struct.pack` with format `>H`). -/
def u16 (n : Nat) : List Nat := [n / 256 % 256, n % 256]

/-- Big-endian bytes of a 32-bit value (`struct.pack` format `>I`). -/
def u32 (n : Nat) : List Nat :=
  [n / 16777216 % 256, n / 65536 % 256, n / 256 % 256, n % 256]

/-- Big-endian bytes of a 64-bit value (used by SHA-256 length padding). -/
def u64 (n : Nat) : List Nat :=
  [n / 72057594037927936 % 256, n / 281474976710656 % 256,
   n / 1099511627776 % 256, n / 4294967296 % 256,
   n / 16777216 % 256, n / 65536 % 256, n / 256 % 256, n % 256]

/-- Python `struct.pack('>H', n)`: 2 bytes, raising out of range. -/
def pack16 (n : Nat) : Option (List Nat) :=
  if n < 65536 then some (u16 n) else none

/-- Python `struct.pack('>I', n)`: 4 bytes, raising out of range. -/
def pack32 (n : Nat) : Option (List Nat) :=
  if n < 4294967296 then some (u32 n) else none

/-- Python `struct.pack('>B', n)`: 1 byte, raising out of range. -/
def pack8 (n : Nat) : Option (List Nat) :=
  if n < 256 then some [n] else none

/-! ## UTF-8 (Python `str.encode('utf-8')`) -/

/-- UTF-8 encoding of a single code point. -/
def utf8EncodeChar (c : Char) : List Nat :=
  let n := c.toNat
  if n < 128 then [n]
  else if n < 2048 then [192 + n / 64, 128 + n % 64]
  else if n < 65536 then [224 + n / 4096, 128 + n / 64 % 64, 128 + n % 64]
  else [240 + n / 262144, 128 + n / 4096 % 64, 128 + n / 64 % 64, 128 + n % 64]

/-- UTF-8 bytes of a string, as `str.encode('utf-8')` produces them. -/
def utf8Str (s : String) : List Nat := s.data.flatMap utf8EncodeChar

/-! ## Base64 (Python `base64.b64encode`, standard alphabet, with padding) -/

/-- The standard base64 alphabet. -/
def b64Alphabet : List Char :=
  "ABCDEFGHIJKLMNOPQRSTUVWXYZabcdefghijklmnopqrstuvwxyz0123456789+/".data

/-- Character for a 6-bit group. -/
def b64Index (n : Nat) : Char := b64Alphabet.getD n 'A'

/-- Base64 of a byte list, three bytes at a time, `=`-padded at the tail. -/
def b64EncodeBytes : List Nat → List Char
  | a :: b :: c :: rest =>
      b64Index (a / 4) :: b64Index (a % 4 * 16 + b / 16) ::
      b64Index (b % 16 * 4 + c / 64) :: b64Index (c % 64) :: b64EncodeBytes rest
  | [a, b] => [b64Index (a / 4), b64Index (a % 4 * 16 + b / 16), b64Index (b % 16 * 4), '=']
  | [a] => [b64Index (a / 4), b64Index (a % 4 * 16), '=', '=']
  | [] => []

/-- Python `base64.b64encode(bs).decode('utf-8')`. -/
def b64s (bs : List Nat) : String := String.mk (b64EncodeBytes bs)

/-! ## SHA-256 and HMAC-SHA256 (Python `hashlib.sha256`, `hmac.new`) -/

/-- Rotate a 32-bit word right by `n` positions. -/
def rotr (n x : Nat) : Nat := w32 ((x >>> n) ||| (x <<< (32 - n)))

/-- SHA-256 compression-state: eight 32-bit working variables. -/
structure Hash8 where
  a : Nat
  b : Nat
  c : Nat
  d : Nat
  e : Nat
  f : Nat
  g : Nat
  h : Nat

/-- Digest bytes of a final state: the eight words, big-endian. -/
def Hash8.toBytes (s : Hash8) : List Nat :=
  u32 s.a ++ u32 s.b ++ u32 s.c ++ u32 s.d ++ u32 s.e ++ u32 s.f ++ u32 s.g ++ u32 s.h

/-- SHA-256 initial state (the eight FIPS 180-4 initial hash words, here in
decimal). -/
def sha256H0 : Hash8 :=
  ⟨1779033703, 3144134277, 1013904242, 2773480762,
   1359893119, 2600822924, 528734635, 1541459225⟩

/-- SHA-256 round constants (the 64 FIPS 180-4 words, here in decimal;
pinned against published digests by the test-vector theorems below). -/
def sha256K : List Nat :=
  [1116352408, 1899447441, 3049323471, 3921009573,
   961987163, 1508970993, 2453635748, 2870763221,
   3624381080, 310598401, 607225278, 1426881987,
   1925078388, 2162078206, 2614888103, 3248222580,
   3835390401, 4022224774, 264347078, 604807628,
   770255983, 1249150122, 1555081692, 1996064986,
   2554220882, 2821834349, 2952996808, 3210313671,
   3336571891, 3584528711, 113926993, 338241895,
   666307205, 773529912, 1294757372, 1396182291,
   1695183700, 1986661051, 2177026350, 2456956037,
   2730485921, 2820302411, 3259730800, 3345764771,
   3516065817, 3600352804, 4094571909, 275423344,
   430227734, 506948616, 659060556, 883997877,
   958139571, 1322822218, 1537002063, 1747873779,
   1955562222, 2024104815, 2227730452, 2361852424,
   2428436474, 2756734187, 3204031479, 3329325298]

/-- Lower-case sigma-0 message-schedule function. -/
def smallSigma0 (x : Nat) : Nat := rotr 7 x ^^^ rotr 18 x ^^^ (x >>> 3)

/-- Lower-case sigma-1 message-schedule function. -/
def smallSigma1 (x : Nat) : Nat := rotr 17 x ^^^ rotr 19 x ^^^ (x >>> 10)

/-- Upper-case sigma-0 round function. -/
def bigSigma0 (x : Nat) : Nat := rotr 2 x ^^^ rotr 13 x ^^^ rotr 22 x

/-- Upper-case sigma-1 round function. -/
def bigSigma1 (x : Nat) : Nat := rotr 6 x ^^^ rotr 11 x ^^^ rotr 25 x

/-- Choice function. -/
def chF (x y z : Nat) : Nat := (x &&& y) ^^^ ((x ^^^ 4294967295) &&& z)

/-- Majority function. -/
def majF (x y z : Nat) : Nat := (x &&& y) ^^^ (x &&& z) ^^^ (y &&& z)

/-- Big-endian 32-bit words of a byte list (whole groups of four). -/
def bytesToWords : List Nat → List Nat
  | a :: b :: c :: d :: rest => (((a * 256 + b) * 256 + c) * 256 + d) :: bytesToWords rest
  | _ => []

/-- Extend a 16-word block schedule by `n` further words. -/
def extendSchedule : Nat → List Nat → List Nat
  | 0, ws => ws
  | n + 1, ws =>
      let l := ws.length
      let x := w32 (smallSigma1 (ws.getD (l - 2) 0) + ws.getD (l - 7) 0 +
                    smallSigma0 (ws.getD (l - 15) 0) + ws.getD (l - 16) 0)
      extendSchedule n (ws ++ [x])

/-- One SHA-256 round. -/
def sha256Round (s : Hash8) (k w : Nat) : Hash8 :=
  let t1 := w32 (s.h + bigSigma1 s.e + chF s.e s.f s.g + k + w)
  let t2 := w32 (bigSigma0 s.a + majF s.a s.b s.c)
  ⟨w32 (t1 + t2), s.a, s.b, s.c, w32 (s.d + t1), s.e, s.f, s.g⟩

/-- Compress one 64-byte block into the running state. -/
def sha256Compress (s : Hash8) (block : List Nat) : Hash8 :=
  let ws := extendSchedule 48 (bytesToWords block)
  let t := (sha256K.zip ws).foldl (fun st kw => sha256Round st kw.1 kw.2) s
  ⟨w32 (s.a + t.a), w32 (s.b + t.b), w32 (s.c + t.c), w32 (s.d + t.d),
   w32 (s.e + t.e), w32 (s.f + t.f), w32 (s.g + t.g), w32 (s.h + t.h)⟩

/-- SHA-256 padding: `0x80`, zeros to 56 mod 64, then the bit length. -/
def sha256Pad (msg : List Nat) : List Nat :=
  let l := msg.length
  msg ++ [128] ++ List.replicate ((64 - (l + 9) % 64) % 64) 0 ++ u64 (8 * l)

/-- Compress `n` successive 64-byte blocks. -/
def sha256Loop : Nat → Hash8 → List Nat → Hash8
  | 0, s, _ => s
  | n + 1, s, msg => sha256Loop n (sha256Compress s (msg.take 64)) (msg.drop 64)

/-- The SHA-256 digest (32 bytes) of a byte list. -/
def sha256 (msg : List Nat) : List Nat :=
  let padded := sha256Pad msg
  (sha256Loop (padded.length / 64) sha256H0 padded).toBytes

/-- HMAC-SHA256 with byte-list key and message (`hmac.new(key, msg, sha256)`). -/
def hmacSha256 (key msg : List Nat) : List Nat :=
  let k0 := if 64 < key.length then sha256 key else key
  let k := k0 ++ List.replicate (64 - k0.length) 0
  let inner := sha256 (k.map (fun b => b ^^^ 54) ++ msg)
  sha256 (k.map (fun b => b ^^^ 92) ++ inner)

/-! ## Hex decoding (Python `bytes.fromhex`) -/

/-- Value of one hexadecimal digit, if the character is one. -/
def hexDigitVal (c : Char) : Option Nat :=
  if '0' ≤ c ∧ c ≤ '9' then some (c.toNat - 48)
  else if 'a' ≤ c ∧ c ≤ 'f' then some (c.toNat - 87)
  else if 'A' ≤ c ∧ c ≤ 'F' then some (c.toNat - 55)
  else none

/-- Decode an even-length hex character list to bytes. -/
def hexDecode : List Char → Option (List Nat)
  | [] => some []
  | a :: b :: rest =>
      match hexDigitVal a, hexDigitVal b, hexDecode rest with
      | some x, some y, some r => some ((x * 16 + y) :: r)
      | _, _, _ => none
  | [_] => none

/-- Raw bytes of a hex string (`bytes.fromhex`), defaulting to `[]` on
malformed input; every certificate this development feeds it is valid hex. -/
def hexBytes (s : String) : List Nat := (hexDecode s.data).getD []

/-! ## Privilege constants and the privilege set (`agora-manager.py` 24-43) -/

/-- Privilege id of `kJoinChannel`. -/
def kJoinChannel : Nat := 1

/-- Privilege id of `kPublishAudioStream`. -/
def kPublishAudioStream : Nat := 2

/-- Privilege id of `kPublishVideoStream`. -/
def kPublishVideoStream : Nat := 3

/-- Privilege id of `kPublishDataStream`. -/
def kPublishDataStream : Nat := 4

/-- Privilege id of `kAdministrateChannel`. -/
def kAdministrateChannel : Nat := 101

/-- Python-dict semantics of `self.privileges[privilege] = expire` on an
insertion-ordered association list: overwrite in place if the key exists,
else append. -/
def addPrivilege (ps : List (Nat × Nat)) (p e : Nat) : List (Nat × Nat) :=
  if ps.any (fun q => decide (q.1 = p)) then
    ps.map (fun q => if q.1 = p then (p, e) else q)
  else ps ++ [(p, e)]

/-- Reading `self.privileges[p]` from the insertion-ordered association
list: the value at the first (and, for dict-shaped lists, only) entry with
key `p`. -/
def privValue : List (Nat × Nat) → Nat → Option Nat
  | [], _ => none
  | q :: rest, p => if q.1 = p then some q.2 else privValue rest p

/-- Comparison by privilege id, the order of Python's `sorted` over dict
items with unique keys. -/
def privLE (a b : Nat × Nat) : Prop := a.1 ≤ b.1

instance : DecidableRel privLE := fun a b => inferInstanceAs (Decidable (a.1 ≤ b.1))

instance : IsTotal (Nat × Nat) privLE := ⟨fun a b => Nat.le_total a.1 b.1⟩

instance : IsTrans (Nat × Nat) privLE := ⟨fun _ _ _ => Nat.le_trans⟩

/-- Python `sorted(self.privileges.items())` for unique keys: a stable sort
ascending by privilege id. -/
def sortPrivileges (ps : List (Nat × Nat)) : List (Nat × Nat) :=
  List.insertionSort privLE ps

/-- The packed privilege entries of `Service.pack`: for each privilege,
`struct.pack('>H', privilege) + struct.pack('>I', expire)`. -/
def packPrivileges : List (Nat × Nat) → Option (List Nat)
  | [] => some []
  | pe :: rest =>
      match pack16 pe.1, pack32 pe.2, packPrivileges rest with
      | some a, some b, some r => some (a ++ b ++ r)
      | _, _, _ => none

/-- Body of `Service.pack`:
`pack('>H', TYPE) + pack('>H', len(privileges)) + packed_privileges`. -/
def packBasePart (ty : Nat) (ps : List (Nat × Nat)) : Option (List Nat) :=
  match packPrivileges (sortPrivileges ps), pack16 ty, pack16 ps.length with
  | some priv, some t, some c => some (t ++ c ++ priv)
  | _, _, _ => none

/-! ## Services (`agora-manager.py` 30-43 and 72-81) -/

/-- The two service classes of the source as a closed tagged variant:
`Service` (TYPE 0) and `ServiceRtc` (TYPE 1, adding channel name and uid). -/
inductive ServiceK where
  | base (privileges : List (Nat × Nat))
  | rtc (privileges : List (Nat × Nat)) (channelName : String) (uid : String)

/-- The class attribute `TYPE`. -/
def ServiceK.type : ServiceK → Nat
  | .base _ => 0
  | .rtc _ _ _ => 1

/-- The privilege dictionary of either service kind. -/
def ServiceK.privileges : ServiceK → List (Nat × Nat)
  | .base ps => ps
  | .rtc ps _ _ => ps

/-- The stored `uid` string of an RTC service (empty for the base kind). -/
def ServiceK.uid : ServiceK → String
  | .base _ => ""
  | .rtc _ _ u => u

/-- `add_privilege(privilege, expire)` on either kind. -/
def ServiceK.addPriv : ServiceK → Nat → Nat → ServiceK
  | .base ps, p, e => .base (addPrivilege ps p e)
  | .rtc ps c u, p, e => .rtc (addPrivilege ps p e) c u

/-- `Service.pack` / `ServiceRtc.pack`.  The RTC override appends
`pack('>H', len(channel_name)) + channel_name.encode('utf-8') +
pack('>H', len(uid)) + uid.encode('utf-8')` to the base body. -/
def ServiceK.pack : ServiceK → Option (List Nat)
  | .base ps => packBasePart 0 ps
  | .rtc ps c u =>
      match packBasePart 1 ps, pack16 c.length, pack16 u.length with
      | some b, some lc, some lu => some (b ++ lc ++ utf8Str c ++ lu ++ utf8Str u)
      | _, _, _ => none

/-- `ServiceRtc.__init__(channel_name, uid)`: stores the channel name and
`str(uid) if uid else ""` — a falsy (zero) uid is stored as the empty
string, any other integer as its decimal representation. -/
def uidString (uid : Int) : String := if uid = 0 then "" else toString uid

/-- A freshly constructed `ServiceRtc` (no privileges yet). -/
def serviceRtcInit (channelName : String) (uid : Int) : ServiceK :=
  .rtc [] channelName (uidString uid)

/-! ## The token builder (`agora-manager.py` 45-70) -/

/-- `random.randint(1, 99999999)`, with the raw draw of the randomness
source made an explicit parameter: uniform reduction of the draw into the
inclusive range. -/
def randint (a b r : Nat) : Nat := a + r % (b - a + 1)

/-- The state of an `AccessToken` instance after `__init__`. -/
structure AccessToken where
  appId : String
  appCertificate : String
  issueTs : Nat
  expireTime : Nat
  salt : Nat
  services : List ServiceK

/-- `AccessToken.__init__(app_id, app_certificate, issue_ts, expire_time)`:
a falsy (zero) `issue_ts` defaults to the current wall clock `now`, and the
salt is drawn once here via `random.randint(1, 99999999)` from raw draw
`rand`. -/
def accessTokenInit (appId appCertificate : String) (issueTs expireTime rand now : Nat) :
    AccessToken :=
  { appId := appId, appCertificate := appCertificate,
    issueTs := if issueTs = 0 then now else issueTs,
    expireTime := expireTime,
    salt := randint 1 99999999 rand,
    services := [] }

/-- `add_service(service)`: the services dict is keyed by `service.TYPE`,
last write per type wins, insertion order otherwise preserved. -/
def addService (t : AccessToken) (s : ServiceK) : AccessToken :=
  { t with services :=
      if t.services.any (fun q => q.type == s.type) then
        t.services.map (fun q => if q.type == s.type then s else q)
      else t.services ++ [s] }

/-- The `packed_services` loop of `build()`: services packed in dict
(insertion) order and concatenated. -/
def packServices : List ServiceK → Option (List Nat)
  | [] => some []
  | s :: rest =>
      match s.pack, packServices rest with
      | some a, some r => some (a ++ r)
      | _, _ => none

/-- The `packed` payload of `build()` (line 62):
`pack('>I', salt) + pack('>I', issue_ts) + pack('>I', expire_time) +
pack('>H', len(services)) + packed_services`. -/
def AccessToken.payload (t : AccessToken) : Option (List Nat) :=
  match packServices t.services, pack32 t.salt, pack32 t.issueTs,
        pack32 t.expireTime, pack16 t.services.length with
  | some ps, some a, some b, some c, some d => some (a ++ b ++ c ++ d ++ ps)
  | _, _, _, _, _ => none

/-- The signature of `build()` (lines 64-65):
`hmac.new(app_certificate.encode('utf-8'), app_id.encode('utf-8') + packed,
sha256).digest()`.  Note the key is the UTF-8 encoding of the certificate
string exactly as held, with no hex decoding. -/
def AccessToken.signature (t : AccessToken) : Option (List Nat) :=
  match t.payload with
  | none => none
  | some p => some (hmacSha256 (utf8Str t.appCertificate) (utf8Str t.appId ++ p))

/-- `build()` (lines 57-70): the final string
`"007" + app_id + base64(signature) + base64(packed)`. -/
def AccessToken.build (t : AccessToken) : Option String :=
  match t.payload with
  | none => none
  | some p =>
      some ("007" ++ t.appId ++
            b64s (hmacSha256 (utf8Str t.appCertificate) (utf8Str t.appId ++ p)) ++
            b64s p)

/-! ## `AgoraAPI.generate_rtc_token` (`agora-manager.py` 134-144) -/

/-- The RTC service constructed by `generate_rtc_token`: `kJoinChannel` is
always granted for `expires_after`; roles equal to 1 (host/publisher)
additionally get the three publish privileges; any other role value is
accepted unchecked and grants nothing further. -/
def rtcServiceFor (channelName : String) (uid : Int) (role : Int) (expiresAfter : Nat) :
    ServiceK :=
  let svc := (serviceRtcInit channelName uid).addPriv kJoinChannel expiresAfter
  if role = 1 then
    ((svc.addPriv kPublishAudioStream expiresAfter).addPriv
        kPublishVideoStream expiresAfter).addPriv kPublishDataStream expiresAfter
  else svc

/-- `AgoraAPI.generate_rtc_token(app_id, app_cert, channel_name, uid, role,
expires_after)`: builds an `AccessToken` (salt from raw draw `rand`, issue
time defaulting to `now`), adds the RTC service, and returns
`token.build()`. -/
def generate_rtc_token (appId appCert channelName : String) (uid : Int) (role : Int)
    (expiresAfter rand now : Nat) : Option String :=
  (addService (accessTokenInit appId appCert 0 expiresAfter rand now)
    (rtcServiceFor channelName uid role expiresAfter)).build

/-! ## `AgoraAPI.generate_rtc_token` (`generate_keys.py` 39-64) -/

/-- The hard-coded certificate hex literal of `generate_keys.py` line 61. -/
def generateKeysCertHex : String := "f76e8ace079b47deb51d9703a1ca925a"

/-- The flat RTC token of `generate_keys.py`: binary payload
`\x00\x02 || u32(len(app_id)) || app_id || u32(len(channel)) || channel ||
u32(len(str(uid))) || str(uid) || u32(expires_at) || u8(role)`, signed with
HMAC-SHA256 keyed by the hex-decoded hard-coded certificate, and returned
as `base64(signature + payload)`.  `expires_at = now + expires_after`. -/
def generateKeysRtcToken (appId channelName : String) (uid : Int) (role : Nat)
    (expiresAfter now : Nat) : Option String :=
  let uidS := toString uid
  match pack32 appId.length, pack32 channelName.length, pack32 uidS.length,
        pack32 (now + expiresAfter), pack8 role with
  | some l1, some l2, some l3, some e, some r =>
      let tok := [0, 2] ++ l1 ++ utf8Str appId ++ l2 ++ utf8Str channelName ++
                 l3 ++ utf8Str uidS ++ e ++ r
      some (b64s (hmacSha256 (hexBytes generateKeysCertHex) tok ++ tok))
  | _, _, _, _, _ => none

/-! ## Claim-side wire descriptions (for the layout refinement claims) -/

/-- Privilege entry bytes as the spec words them: entries in ascending
privilege-id order, each `uint16(id) || uint32(expire)`. -/
def specPrivilegeBytes (ps : List (Nat × Nat)) : List Nat :=
  (sortPrivileges ps).flatMap (fun pe => u16 pe.1 ++ u32 pe.2)

/-- Service bytes as the spec words them:
`uint16(service_type) || uint16(privilege_count) || privilege entries ||`
for the RTC kind `uint16(len(channel_name)) || channel utf8 ||
uint16(len(user_id)) || user_id utf8`. -/
def specServiceBytes : ServiceK → List Nat
  | .base ps => u16 0 ++ u16 ps.length ++ specPrivilegeBytes ps
  | .rtc ps c u =>
      u16 1 ++ u16 ps.length ++ specPrivilegeBytes ps ++
      u16 c.length ++ utf8Str c ++ u16 u.length ++ utf8Str u

/-- Full payload bytes as the spec words them:
`uint32(salt) || uint32(issue_ts) || uint32(expire_time) ||
uint16(service_count) ||` services in insertion order. -/
def specPayloadBytes (salt issueTs expireTime : Nat) (svcs : List ServiceK) : List Nat :=
  u32 salt ++ u32 issueTs ++ u32 expireTime ++ u16 svcs.length ++
    svcs.flatMap specServiceBytes

/-- All privilege fields of a set, and its count, fit their wire widths. -/
def privListOK (ps : List (Nat × Nat)) : Bool :=
  ps.all (fun pe => decide (pe.1 < 65536) && decide (pe.2 < 4294967296)) &&
    decide (ps.length < 65536)

/-- All numeric fields of a service fit their wire widths. -/
def serviceOK : ServiceK → Bool
  | .base ps => privListOK ps
  | .rtc ps c u =>
      privListOK ps && decide (c.length < 65536) && decide (u.length < 65536)

/-- Signature as claim C3 words it: HMAC-SHA256 keyed by the certificate's
hex-decoded raw bytes over `app_id_utf8 ++ payload`.  Stated from the
claim's words, for comparison against the source's
`AccessToken.signature`. -/
def claimHexKeySignature (t : AccessToken) : Option (List Nat) :=
  match t.payload with
  | none => none
  | some p => some (hmacSha256 (hexBytes t.appCertificate) (utf8Str t.appId ++ p))

/-! ## Concrete instances used by witnesses and counterexamples -/

/-- A small concrete token: app id "a", certificate string "k",
issue time 5, expire 7, salt 3, one RTC service on channel "r", uid 42,
holding the join privilege. -/
def sampleTok : AccessToken :=
  ⟨"a", "k", 5, 7, 3, [(serviceRtcInit "r" 42).addPriv kJoinChannel 7]⟩

/-- The hand-computed payload bytes of `sampleTok`. -/
def samplePayloadBytes : List Nat :=
  [0, 0, 0, 3, 0, 0, 0, 5, 0, 0, 0, 7, 0, 1,
   0, 1, 0, 1, 0, 1, 0, 0, 0, 7, 0, 1, 114, 0, 2, 52, 50]

/-- A token whose certificate string is valid hex ("00" * 16), to compare
the code's UTF-8 keying against the claim's hex-decoded keying. -/
def hexCertTok : AccessToken :=
  ⟨"a", "00000000000000000000000000000000", 5, 7, 3,
   [(serviceRtcInit "r" 42).addPriv kJoinChannel 7]⟩

/-- The token the code constructs for empty `app_id` and empty
`app_certificate` (claim C6's failing input), salt draw 5, clock
1700000000. -/
def emptyIdTok : AccessToken :=
  addService (accessTokenInit "" "" 0 900 5 1700000000)
    ((serviceRtcInit "room" 0).addPriv kJoinChannel 900)

/-! ## Sanity checks of the primitives against published test vectors -/

/-- SHA-256 of the empty message matches the published digest. -/
theorem sha256_nil :
    sha256 [] =
      [0xe3, 0xb0, 0xc4, 0x42, 0x98, 0xfc, 0x1c, 0x14, 0x9a, 0xfb, 0xf4, 0xc8,
       0x99, 0x6f, 0xb9, 0x24, 0x27, 0xae, 0x41, 0xe4, 0x64, 0x9b, 0x93, 0x4c,
       0xa4, 0x95, 0x99, 0x1b, 0x78, 0x52, 0xb8, 0x55] := by decide

/-- SHA-256 of the three bytes of `"abc"` matches the published digest. -/
theorem sha256_abc :
    sha256 (utf8Str "abc") =
      [0xba, 0x78, 0x16, 0xbf, 0x8f, 0x01, 0xcf, 0xea, 0x41, 0x41, 0x40, 0xde,
       0x5d, 0xae, 0x22, 0x23, 0xb0, 0x03, 0x61, 0xa3, 0x96, 0x17, 0x7a, 0x9c,
       0xb4, 0x10, 0xff, 0x61, 0xf2, 0x00, 0x15, 0xad] := by decide

/-- Base64 of `"Man"` is `"TWFu"`, and `=`-padding appears for short tails. -/
theorem b64_sanity : b64s (utf8Str "Man") = "TWFu" ∧ b64s [77] = "TQ==" := by decide

/-! ## Packing lemmas -/

/-- In-range values pack to their wire image. -/
theorem pack16_of_lt {n : Nat} (h : n < 65536) : pack16 n = some (u16 n) := by
  simp [pack16, h]

/-- In-range values pack to their wire image. -/
theorem pack32_of_lt {n : Nat} (h : n < 4294967296) : pack32 n = some (u32 n) := by
  simp [pack32, h]

/-- Out-of-range 16-bit packing raises. -/
theorem pack16_of_ge {n : Nat} (h : 65536 ≤ n) : pack16 n = none := by
  simp [pack16, Nat.not_lt.mpr h]

/-- Out-of-range 32-bit packing raises. -/
theorem pack32_of_ge {n : Nat} (h : 4294967296 ≤ n) : pack32 n = none := by
  simp [pack32, Nat.not_lt.mpr h]

/-- Sorting the privilege list does not change membership. -/
theorem mem_sortPrivileges {x : Nat × Nat} {ps : List (Nat × Nat)} :
    x ∈ sortPrivileges ps ↔ x ∈ ps :=
  (List.perm_insertionSort privLE ps).mem_iff

/-- Privilege entries pack to their wire image when every field is in
range. -/
theorem packPrivileges_eq {ps : List (Nat × Nat)}
    (h : ∀ pe ∈ ps, pe.1 < 65536 ∧ pe.2 < 4294967296) :
    packPrivileges ps = some (ps.flatMap (fun pe => u16 pe.1 ++ u32 pe.2)) := by
  induction ps with
  | nil => rfl
  | cons pe rest ih =>
      have h1 := h pe (List.mem_cons_self pe rest)
      rw [packPrivileges, pack16_of_lt h1.1, pack32_of_lt h1.2,
        ih (fun x hx => h x (List.mem_cons_of_mem pe hx))]
      simp

/-- Privilege entries fail to pack when any field is out of range. -/
theorem packPrivileges_none {ps : List (Nat × Nat)} {p e : Nat}
    (hmem : (p, e) ∈ ps) (hbad : 65536 ≤ p ∨ 4294967296 ≤ e) :
    packPrivileges ps = none := by
  induction ps with
  | nil => cases hmem
  | cons pe rest ih =>
      rcases List.mem_cons.mp hmem with heq | htail
      · rcases hbad with hp | he
        · rw [packPrivileges, ← heq, pack16_of_ge hp]
        · rw [packPrivileges, ← heq, pack32_of_ge he]
          cases pack16 p <;> rfl
      · rw [packPrivileges, ih htail]
        cases pack16 pe.1 <;> cases pack32 pe.2 <;> rfl

/-- The base body packs to its wire image when every field is in range. -/
theorem packBasePart_eq {ty : Nat} {ps : List (Nat × Nat)} (hty : ty < 65536)
    (hps : ∀ pe ∈ ps, pe.1 < 65536 ∧ pe.2 < 4294967296) (hlen : ps.length < 65536) :
    packBasePart ty ps = some (u16 ty ++ u16 ps.length ++ specPrivilegeBytes ps) := by
  rw [packBasePart,
    packPrivileges_eq (fun x hx => hps x (mem_sortPrivileges.mp hx)),
    pack16_of_lt hty, pack16_of_lt hlen]
  rfl

/-- The base body fails to pack when a privilege field is out of range. -/
theorem packBasePart_none {ty : Nat} {ps : List (Nat × Nat)} {p e : Nat}
    (hmem : (p, e) ∈ ps) (hbad : 65536 ≤ p ∨ 4294967296 ≤ e) :
    packBasePart ty ps = none := by
  rw [packBasePart, packPrivileges_none (mem_sortPrivileges.mpr hmem) hbad]

/-- The `privListOK` bound, unpacked. -/
theorem privListOK_iff {ps : List (Nat × Nat)} :
    privListOK ps = true ↔
      (∀ pe ∈ ps, pe.1 < 65536 ∧ pe.2 < 4294967296) ∧ ps.length < 65536 := by
  simp [privListOK, List.all_eq_true]

/-- A service whose fields are in range packs to its spec wire image. -/
theorem ServiceK.pack_eq {s : ServiceK} (h : serviceOK s = true) :
    s.pack = some (specServiceBytes s) := by
  cases s with
  | base ps =>
      obtain ⟨hps, hlen⟩ := privListOK_iff.mp h
      rw [ServiceK.pack, packBasePart_eq (by norm_num) hps hlen]
      rfl
  | rtc ps c u =>
      simp only [serviceOK, Bool.and_eq_true, decide_eq_true_eq] at h
      obtain ⟨⟨hpriv, hc⟩, hu⟩ := h
      obtain ⟨hps, hlen⟩ := privListOK_iff.mp hpriv
      rw [ServiceK.pack, packBasePart_eq (by norm_num) hps hlen,
        pack16_of_lt hc, pack16_of_lt hu]
      simp [specServiceBytes]

/-- A service list packs to the concatenation of the spec wire images. -/
theorem packServices_eq {svcs : List ServiceK} (h : ∀ s ∈ svcs, serviceOK s = true) :
    packServices svcs = some (svcs.flatMap specServiceBytes) := by
  induction svcs with
  | nil => rfl
  | cons s rest ih =>
      rw [packServices, ServiceK.pack_eq (h s (List.mem_cons_self s rest)),
        ih (fun x hx => h x (List.mem_cons_of_mem s hx))]
      simp

/-- A token whose fields are all in range yields exactly the spec payload. -/
theorem AccessToken.payload_eq {t : AccessToken}
    (h1 : t.salt < 4294967296) (h2 : t.issueTs < 4294967296)
    (h3 : t.expireTime < 4294967296) (h4 : t.services.length < 65536)
    (h5 : ∀ s ∈ t.services, serviceOK s = true) :
    t.payload = some (specPayloadBytes t.salt t.issueTs t.expireTime t.services) := by
  rw [AccessToken.payload, packServices_eq h5, pack32_of_lt h1, pack32_of_lt h2,
    pack32_of_lt h3, pack16_of_lt h4]
  simp [specPayloadBytes]

/-! ## Dictionary-semantics lemmas for `add_privilege` -/

/-- After overwriting an existing key, reading it yields the new value. -/
theorem privValue_map_overwrite {ps : List (Nat × Nat)} {p e : Nat}
    (h : ps.any (fun q => decide (q.1 = p)) = true) :
    privValue (ps.map (fun q => if q.1 = p then (p, e) else q)) p = some e := by
  induction ps with
  | nil => simp at h
  | cons q rest ih =>
      by_cases hq : q.1 = p
      · simp [privValue, hq]
      · have hrest : rest.any (fun q => decide (q.1 = p)) = true := by
          simpa [hq] using h
        simpa [privValue, hq] using ih hrest

/-- Appending a fresh key makes it readable with the appended value. -/
theorem privValue_append_fresh {ps : List (Nat × Nat)} {p e : Nat}
    (h : ps.any (fun q => decide (q.1 = p)) = false) :
    privValue (ps ++ [(p, e)]) p = some e := by
  induction ps with
  | nil => simp [privValue]
  | cons q rest ih =>
      simp only [List.any_cons, Bool.or_eq_false_iff, decide_eq_false_iff_not] at h
      simpa [privValue, h.1] using ih (by simpa using h.2)

/-- `add_privilege` makes the new expiration the one read back: the most
recently added expiration wins. -/
theorem privValue_addPrivilege_self (ps : List (Nat × Nat)) (p e : Nat) :
    privValue (addPrivilege ps p e) p = some e := by
  rw [addPrivilege]
  split
  case isTrue h => exact privValue_map_overwrite h
  case isFalse h => exact privValue_append_fresh (Bool.eq_false_iff.mpr h)

/-- Overwriting the entry for `p` leaves every other key's value alone. -/
theorem privValue_map_other (ps : List (Nat × Nat)) (p e q : Nat) (hq : q ≠ p) :
    privValue (ps.map (fun x => if x.1 = p then (p, e) else x)) q = privValue ps q := by
  induction ps with
  | nil => rfl
  | cons x rest ih =>
      by_cases hx : x.1 = p
      · simp only [List.map_cons, if_pos hx, privValue,
          if_neg (Ne.symm hq), if_neg (fun h : x.1 = q => hq (h ▸ hx))]
        exact ih
      · simp only [List.map_cons, if_neg hx, privValue]
        split
        · rfl
        · exact ih

/-- Appending the entry for `p` leaves every other key's value alone. -/
theorem privValue_append_other (ps : List (Nat × Nat)) (p e q : Nat) (hq : q ≠ p) :
    privValue (ps ++ [(p, e)]) q = privValue ps q := by
  induction ps with
  | nil => simp [privValue, Ne.symm hq]
  | cons x rest ih =>
      simp only [List.cons_append, privValue]
      split
      · rfl
      · exact ih

/-- `add_privilege` leaves every other key's value unchanged. -/
theorem privValue_addPrivilege_other (ps : List (Nat × Nat)) (p e q : Nat)
    (hq : q ≠ p) : privValue (addPrivilege ps p e) q = privValue ps q := by
  rw [addPrivilege]
  split
  · exact privValue_map_other ps p e q hq
  · exact privValue_append_other ps p e q hq

/-- Overwriting the entry for `p` does not change the key list. -/
theorem overwrite_keys (ps : List (Nat × Nat)) (p e : Nat) :
    (ps.map (fun x => if x.1 = p then (p, e) else x)).map Prod.fst = ps.map Prod.fst := by
  induction ps with
  | nil => rfl
  | cons x rest ih =>
      by_cases hx : x.1 = p
      · simp only [List.map_cons, if_pos hx, ih]
        simp [hx]
      · simp only [List.map_cons, if_neg hx, ih]

/-- The keys of `add_privilege` are the old keys, extended by `p` exactly
when `p` was absent — so a key set without duplicates stays without
duplicates: one entry per distinct id. -/
theorem addPrivilege_keys_nodup (ps : List (Nat × Nat)) (p e : Nat)
    (h : (ps.map Prod.fst).Nodup) : ((addPrivilege ps p e).map Prod.fst).Nodup := by
  rw [addPrivilege]
  split
  case isTrue _ =>
      rw [overwrite_keys]
      exact h
  case isFalse hany =>
      have habs : p ∉ ps.map Prod.fst := by
        intro hmem
        apply hany
        obtain ⟨q, hqmem, hqk⟩ := List.mem_map.mp hmem
        exact List.any_eq_true.mpr ⟨q, hqmem, by simp [hqk]⟩
      simp only [List.map_append, List.map_cons, List.map_nil]
      rw [List.nodup_append]
      refine ⟨h, List.nodup_singleton p, ?_⟩
      intro a ha hmem
      rw [List.mem_singleton] at hmem
      exact habs (hmem ▸ ha)

/-! ## Digest length lemmas -/

/-- The digest bytes of any compression state are 32 bytes. -/
theorem Hash8.toBytes_length (s : Hash8) : s.toBytes.length = 32 := by
  simp [Hash8.toBytes, u32]

/-- Every SHA-256 digest is 32 bytes. -/
theorem sha256_length (m : List Nat) : (sha256 m).length = 32 := by
  simp [sha256, Hash8.toBytes_length]

/-- Every HMAC-SHA256 digest is 32 bytes. -/
theorem hmacSha256_length (k m : List Nat) : (hmacSha256 k m).length = 32 := by
  simp [hmacSha256, sha256_length]

/-! ## Claim C1 — token string format -/

/-- C1 (amended): for the `AccessToken`-based generator, whenever the
payload packs, `build()` returns exactly
`"007" ++ app_id ++ base64(signature) ++ base64(payload)` — a string that
begins with the version tag "007" followed by `app_id` verbatim.  (The flat
generator of `generate_keys.py` does not satisfy the claim; see the
counterexample.) -/
theorem c1_token_format (t : AccessToken) (p : List Nat) (h : t.payload = some p) :
    t.build = some ("007" ++ t.appId ++
      b64s (hmacSha256 (utf8Str t.appCertificate) (utf8Str t.appId ++ p)) ++ b64s p) := by
  rw [AccessToken.build, h]

/-- Witness for C1 at the concrete `sampleTok`. -/
theorem c1_token_format_witness :
    sampleTok.payload = some samplePayloadBytes ∧
    sampleTok.build = some ("007" ++ sampleTok.appId ++
      b64s (hmacSha256 (utf8Str sampleTok.appCertificate)
        (utf8Str sampleTok.appId ++ samplePayloadBytes)) ++ b64s samplePayloadBytes) :=
  ⟨by decide, c1_token_format sampleTok samplePayloadBytes (by decide)⟩

set_option maxRecDepth 4000 in
/-- C1 counterexample: the RTC token generator of `generate_keys.py`
produces, at a concrete valid input, a defined token string that begins
with neither "006" nor "007" — the whole output is base64, so it cannot be
the concatenation `version ++ app_id ++ base64(signature) ++
base64(payload)` the claim asserts. -/
theorem c1_counterexample :
    (generateKeysRtcToken "a" "c" 0 2 3600 1700000000).isSome = true ∧
    ((generateKeysRtcToken "a" "c" 0 2 3600 1700000000).getD "").data.take 3 ≠ "006".data ∧
    ((generateKeysRtcToken "a" "c" 0 2 3600 1700000000).getD "").data.take 3 ≠ "007".data := by
  decide

/-! ## Claim C2 — payload byte layout and dict semantics -/

/-- C2: for every token whose numeric fields fit their wire widths,
`build()`'s payload is exactly `uint32(salt) || uint32(issue_ts) ||
uint32(expire_time) || uint16(service_count)` followed by each service in
insertion order as `uint16(type) || uint16(privilege_count) || privilege
entries ascending by id (uint16 id || uint32 expire) ||
uint16(len(channel)) || channel utf8 || uint16(len(uid)) || uid utf8`; and
`add_privilege` keeps one entry per distinct id carrying the most recently
added expiration. -/
theorem c2_payload_layout (t : AccessToken) (ps : List (Nat × Nat)) (p q e : Nat)
    (h1 : t.salt < 4294967296) (h2 : t.issueTs < 4294967296)
    (h3 : t.expireTime < 4294967296) (h4 : t.services.length < 65536)
    (h5 : ∀ s ∈ t.services, serviceOK s = true)
    (hq : q ≠ p) (hnd : (ps.map Prod.fst).Nodup) :
    t.payload = some (specPayloadBytes t.salt t.issueTs t.expireTime t.services) ∧
    List.Sorted privLE (sortPrivileges ps) ∧
    List.Perm (sortPrivileges ps) ps ∧
    privValue (addPrivilege ps p e) p = some e ∧
    privValue (addPrivilege ps p e) q = privValue ps q ∧
    ((addPrivilege ps p e).map Prod.fst).Nodup := by
  refine ⟨AccessToken.payload_eq h1 h2 h3 h4 h5,
    List.sorted_insertionSort privLE ps,
    List.perm_insertionSort privLE ps,
    privValue_addPrivilege_self ps p e,
    privValue_addPrivilege_other ps p e q hq,
    addPrivilege_keys_nodup ps p e hnd⟩

/-- Witness for C2 at the concrete `sampleTok` and a duplicate-id update. -/
theorem c2_payload_layout_witness :
    ((∀ s ∈ sampleTok.services, serviceOK s = true) ∧ ((2 : Nat) ≠ 1) ∧
      (([(1, 10)] : List (Nat × Nat)).map Prod.fst).Nodup) ∧
    (sampleTok.payload =
        some (specPayloadBytes sampleTok.salt sampleTok.issueTs sampleTok.expireTime
          sampleTok.services) ∧
      List.Sorted privLE (sortPrivileges [(1, 10)]) ∧
      List.Perm (sortPrivileges [(1, 10)]) [(1, 10)] ∧
      privValue (addPrivilege [(1, 10)] 1 20) 1 = some 20 ∧
      privValue (addPrivilege [(1, 10)] 1 20) 2 = privValue [(1, 10)] 2 ∧
      ((addPrivilege [(1, 10)] 1 20).map Prod.fst).Nodup) :=
  ⟨⟨by decide, by decide, by decide⟩,
    c2_payload_layout sampleTok [(1, 10)] 1 2 20 (by decide) (by decide) (by decide)
      (by decide) (by decide) (by decide) (by decide)⟩

/-! ## Claim C3 — signature scheme -/

/-- C3 (amended): the signature is the 32-byte HMAC-SHA256 digest computed
in one shot over the whole message `app_id_utf8 ++ payload`, keyed by the
UTF-8 bytes of the certificate string exactly as held — not by the hex
certificate string decoded to raw bytes (see the counterexample). -/
theorem c3_signature_scheme (t : AccessToken) (p : List Nat) (h : t.payload = some p) :
    t.signature = some (hmacSha256 (utf8Str t.appCertificate) (utf8Str t.appId ++ p)) ∧
    (hmacSha256 (utf8Str t.appCertificate) (utf8Str t.appId ++ p)).length = 32 := by
  constructor
  · rw [AccessToken.signature, h]
  · exact hmacSha256_length _ _

/-- Witness for C3 at the concrete `sampleTok`. -/
theorem c3_signature_scheme_witness :
    sampleTok.payload = some samplePayloadBytes ∧
    (sampleTok.signature =
        some (hmacSha256 (utf8Str sampleTok.appCertificate)
          (utf8Str sampleTok.appId ++ samplePayloadBytes)) ∧
      (hmacSha256 (utf8Str sampleTok.appCertificate)
        (utf8Str sampleTok.appId ++ samplePayloadBytes)).length = 32) :=
  ⟨by decide, c3_signature_scheme sampleTok samplePayloadBytes (by decide)⟩

set_option maxRecDepth 4000 in
/-- C3 counterexample: for a token whose certificate string is valid hex
("00" * 16), the signature the code computes differs from the claim's
signature keyed by the hex-decoded raw bytes of the certificate. -/
theorem c3_counterexample :
    AccessToken.signature hexCertTok ≠ claimHexKeySignature hexCertTok := by
  decide

/-! ## Claim C4 — determinism modulo randomness -/

/-- C4: fixing the salt and issue timestamp, two token builds with
identical app id, certificate, expiration and services produce byte-
identical payloads and signatures, hence identical token strings — the
build is a pure function of the constructed state. -/
theorem c4_determinism (t1 t2 : AccessToken)
    (hid : t1.appId = t2.appId) (hcert : t1.appCertificate = t2.appCertificate)
    (hts : t1.issueTs = t2.issueTs) (hexp : t1.expireTime = t2.expireTime)
    (hsalt : t1.salt = t2.salt) (hsvc : t1.services = t2.services) :
    t1.payload = t2.payload ∧ t1.signature = t2.signature ∧ t1.build = t2.build := by
  cases t1
  cases t2
  simp only at hid hcert hts hexp hsalt hsvc
  subst hid
  subst hcert
  subst hts
  subst hexp
  subst hsalt
  subst hsvc
  exact ⟨rfl, rfl, rfl⟩

/-- Witness for C4 at the concrete `sampleTok` against itself. -/
theorem c4_determinism_witness :
    sampleTok.payload = sampleTok.payload ∧
    sampleTok.signature = sampleTok.signature ∧
    sampleTok.build = sampleTok.build :=
  c4_determinism sampleTok sampleTok rfl rfl rfl rfl rfl rfl

/-! ## Claim C5 — role-to-privilege mapping -/

/-- C5: for any channel, uid and ttl, role 1 (host) grants exactly
join-channel, publish-audio, publish-video and publish-data; role 2
(audience) grants exactly join-channel; and the host privilege list is the
audience list extended by exactly the three publish privileges. -/
theorem c5_role_privileges (c : String) (uid : Int) (e : Nat) :
    (rtcServiceFor c uid 1 e).privileges.map Prod.fst =
      [kJoinChannel, kPublishAudioStream, kPublishVideoStream, kPublishDataStream] ∧
    (rtcServiceFor c uid 2 e).privileges.map Prod.fst = [kJoinChannel] ∧
    (rtcServiceFor c uid 1 e).privileges =
      (rtcServiceFor c uid 2 e).privileges ++
        [(kPublishAudioStream, e), (kPublishVideoStream, e), (kPublishDataStream, e)] := by
  refine ⟨rfl, rfl, rfl⟩

/-! ## Claim C6 — empty app id / certificate -/

/-- C6 (code behavior at the claimed failing input): the source performs no
input validation — with empty `app_id` and empty `app_certificate`,
`build()` still succeeds and returns a complete token string instead of
raising any error. -/
theorem c6_empty_inputs_build_succeeds :
    emptyIdTok.appId = "" ∧ emptyIdTok.appCertificate = "" ∧
    emptyIdTok.build.isSome = true := by
  refine ⟨rfl, rfl, ?_⟩
  rfl

/-! ## Claim C7 — out-of-range fields fail serialization -/

/-- C7: a privilege id beyond the uint16 range, or an expiration beyond the
uint32 range, makes serialization of either service kind fail (Python's
`struct.error`, modelled as `none`) — no truncated or wrapped bytes are
ever produced. -/
theorem c7_out_of_range_fails (ps : List (Nat × Nat)) (c u : String) (p e : Nat)
    (hmem : (p, e) ∈ ps) (hbad : 65536 ≤ p ∨ 4294967296 ≤ e) :
    (ServiceK.rtc ps c u).pack = none ∧ (ServiceK.base ps).pack = none := by
  constructor
  · rw [ServiceK.pack, packBasePart_none hmem hbad]
  · rw [ServiceK.pack, packBasePart_none hmem hbad]

/-- Witness for C7 at a privilege id of 70000 (beyond uint16). -/
theorem c7_out_of_range_fails_witness :
    (((70000 : Nat), (1 : Nat)) ∈ [((70000 : Nat), (1 : Nat))] ∧
      (65536 ≤ 70000 ∨ 4294967296 ≤ 1)) ∧
    ((ServiceK.rtc [(70000, 1)] "r" "42").pack = none ∧
      (ServiceK.base [(70000, 1)]).pack = none) :=
  ⟨⟨by decide, by decide⟩,
    c7_out_of_range_fails [(70000, 1)] "r" "42" 70000 1 (by decide) (by decide)⟩

/-! ## Claim C8 — uid carried as decimal string -/

/-- C8 (amended): a nonzero integer uid is carried inside the service as
its decimal-string representation; a zero uid — Python-falsy — is carried
as the empty string (auto-assign), not as "0". -/
theorem c8_uid_decimal (c : String) (uid : Int) (h : uid ≠ 0) :
    (serviceRtcInit c uid).uid = toString uid ∧ (serviceRtcInit c 0).uid = "" := by
  constructor
  · simp [serviceRtcInit, ServiceK.uid, uidString, h]
  · rfl

/-- Witness for C8 at uid 42. -/
theorem c8_uid_decimal_witness :
    ((42 : Int) ≠ 0) ∧
    ((serviceRtcInit "room" 42).uid = toString (42 : Int) ∧
      (serviceRtcInit "room" 0).uid = "") :=
  ⟨by decide, c8_uid_decimal "room" 42 (by decide)⟩

/-- C8 counterexample: at uid 0 the carried user id is the empty string,
which is not the decimal representation "0" of that integer. -/
theorem c8_counterexample :
    (serviceRtcInit "room" 0).uid = "" ∧ toString (0 : Int) = "0" ∧
    (serviceRtcInit "room" 0).uid ≠ toString (0 : Int) := by
  refine ⟨rfl, rfl, by decide⟩

/-! ## Claim C9 — salt range and freshness -/

/-- C9 (amended): every salt the constructor draws lies in the inclusive
range [1, 99999999]; the draw happens once per `AccessToken` construction
(hence once per `generate_rtc_token` call), not once per `build()`. -/
theorem c9_salt_range (appId cert : String) (issueTs expireTime rand now : Nat) :
    1 ≤ (accessTokenInit appId cert issueTs expireTime rand now).salt ∧
    (accessTokenInit appId cert issueTs expireTime rand now).salt ≤ 99999999 := by
  have h : rand % 99999999 < 99999999 := Nat.mod_lt _ (by norm_num)
  constructor
  · simp [accessTokenInit, randint]
  · simp only [accessTokenInit, randint]
    omega

/-- C9 counterexample: two distinct constructions, with the distinct fresh
raw draws 0 and 99999999, produce the same salt value 1 — so two distinct
`build()` invocations can share a salt, against "never share a salt by
construction". -/
theorem c9_counterexample :
    (accessTokenInit "a" "c" 1 900 0 10).salt =
      (accessTokenInit "a" "c" 1 900 99999999 10).salt ∧
    (0 : Nat) ≠ 99999999 := by
  decide

/-! ## Claim C10 — roles other than 1 behave as audience -/

/-- C10: any integer role other than 1 is accepted without validation and
grants exactly the join-channel privilege — the same privilege set, and the
same token, as the documented audience role 2. -/
theorem c10_nonhost_roles (appId appCert c : String) (uid : Int) (role : Int)
    (e rand now : Nat) (h : role ≠ 1) :
    (rtcServiceFor c uid role e).privileges = [(kJoinChannel, e)] ∧
    rtcServiceFor c uid role e = rtcServiceFor c uid 2 e ∧
    generate_rtc_token appId appCert c uid role e rand now =
      generate_rtc_token appId appCert c uid 2 e rand now := by
  have hsvc : rtcServiceFor c uid role e = rtcServiceFor c uid 2 e := by
    simp [rtcServiceFor, h]
  refine ⟨?_, hsvc, ?_⟩
  · rw [hsvc]
    rfl
  · rw [generate_rtc_token, hsvc, generate_rtc_token]

/-- Witness for C10 at the undocumented role 5. -/
theorem c10_nonhost_roles_witness :
    ((5 : Int) ≠ 1) ∧
    ((rtcServiceFor "r" 42 5 600).privileges = [(kJoinChannel, 600)] ∧
      rtcServiceFor "r" 42 5 600 = rtcServiceFor "r" 42 2 600 ∧
      generate_rtc_token "a" "k" "r" 42 5 600 0 1 =
        generate_rtc_token "a" "k" "r" 42 2 600 0 1) :=
  ⟨by decide, c10_nonhost_roles "a" "k" "r" 42 5 600 0 1 (by decide)⟩
